import Mathlib

/-!
Verification of the ML-APIS text-to-JSON conversion service
(`src/app.py`, `src/converter.py`).

The development shallowly embeds the Python code that the claims are
about: the JSON value model and the behaviour of `json.loads` /
`json.dumps` on it, the two `validate_json` implementations, the
normalisation step of `convert_text_to_json` (strict parse with lenient
fallback followed by validation), the retry loops of both files, the
prompt builders, and the boundary checks of the two HTTP handlers.

Python `dict`s produced by `json.loads` are modelled as insertion-ordered
association lists (`List (String × Json)`) with at most one binding per
key: duplicate keys in the JSON text overwrite in place, exactly as in
Python.  JSON numbers are modelled as `Int` for integer literals; a
non-integer numeric literal is kept as its source text in `Json.floatLit`
(no claim inspects numeric values, so float arithmetic is never needed).
-/

/-- The JSON values `json.loads` can produce (floats kept as literals,
see the module comment). -/
inductive Json where
  | null : Json
  | bool : Bool → Json
  | num : Int → Json
  | floatLit : String → Json
  | str : String → Json
  | arr : List Json → Json
  | obj : List (String × Json) → Json

/-- JSON whitespace skipped between tokens by Python's `json` scanner:
space, tab, newline, carriage return. -/
def skipWs : List Char → List Char
  | [] => []
  | c :: cs =>
    if c = ' ' ∨ c = '\t' ∨ c = '\n' ∨ c = '\r' then skipWs cs else c :: cs

/-- `leadsWith p l` is true when `p` is an initial segment of `l`
(Python `str.startswith` on character lists). -/
def leadsWith : List Char → List Char → Bool
  | [], _ => true
  | _ :: _, [] => false
  | a :: as, b :: bs => (a == b) && leadsWith as bs

/-- `segIn needle hay`: `needle` occurs as a contiguous segment of `hay`
(Python's substring test `needle in hay`). -/
def segIn (needle : List Char) : List Char → Bool
  | [] => needle.isEmpty
  | c :: t => leadsWith needle (c :: t) || segIn needle t

/-- Membership of a key in a Python dict modelled as an association list. -/
def hasKey : List (String × Json) → String → Bool
  | [], _ => false
  | p :: t, k => (p.1 == k) || hasKey t k

/-- `d[k]` lookup on the association-list model of a Python dict. -/
def lookupKey : List (String × Json) → String → Option Json
  | [], _ => none
  | p :: t, k => if p.1 == k then some p.2 else lookupKey t k

/-- `d[k] = v` on the association-list model of a Python dict: overwrite
in place when the key exists, append otherwise (matching Python's
insertion-ordered dicts). -/
def dictInsert (kvs : List (String × Json)) (k : String) (v : Json) :
    List (String × Json) :=
  if hasKey kvs k then
    kvs.map (fun p => if p.1 == k then (p.1, v) else p)
  else kvs ++ [(k, v)]

/-- If `p` is an initial segment of `cs`, drop it and return the rest. -/
def dropSeg : List Char → List Char → Option (List Char)
  | [], cs => some cs
  | _ :: _, [] => none
  | p :: ps, c :: cs => if p = c then dropSeg ps cs else none

/-- Value of one hexadecimal digit. -/
def hexVal (c : Char) : Option Nat :=
  if 48 ≤ c.toNat ∧ c.toNat ≤ 57 then some (c.toNat - 48)
  else if 97 ≤ c.toNat ∧ c.toNat ≤ 102 then some (c.toNat - 87)
  else if 65 ≤ c.toNat ∧ c.toNat ≤ 70 then some (c.toNat - 55)
  else none

/-- Body of a JSON string literal after the opening quote, as scanned by
Python's `json` string scanner in strict mode: the usual two-character
escapes, `\uXXXX` escapes (surrogate pairs combined), and a hard error on
unescaped control characters.  Deviations: a lone surrogate escape is
rejected here while Python keeps the unpaired surrogate in the `str`
(Lean's `Char` cannot hold it); no claim exercises `\u` escapes at all. -/
def parseStringBody : List Char → List Char → Option (String × List Char)
  | [], _ => none
  | c :: rest, acc =>
    if c = '"' then some (String.mk acc.reverse, rest)
    else if c = '\\' then
      match rest with
      | [] => none
      | 'u' :: h1 :: h2 :: h3 :: h4 :: rest2 =>
        (match hexVal h1, hexVal h2, hexVal h3, hexVal h4 with
         | some a, some b, some c3, some d =>
           let n := ((a * 16 + b) * 16 + c3) * 16 + d
           if 55296 ≤ n ∧ n ≤ 56319 then
             match rest2 with
             | '\\' :: 'u' :: k1 :: k2 :: k3 :: k4 :: rest3 =>
               (match hexVal k1, hexVal k2, hexVal k3, hexVal k4 with
                | some a2, some b2, some c2, some d2 =>
                  let m := ((a2 * 16 + b2) * 16 + c2) * 16 + d2
                  if 56320 ≤ m ∧ m ≤ 57343 then
                    parseStringBody rest3
                      (Char.ofNat (65536 + (n - 55296) * 1024 + (m - 56320)) :: acc)
                  else none
                | _, _, _, _ => none)
             | _ => none
           else if 56320 ≤ n ∧ n ≤ 57343 then none
           else parseStringBody rest2 (Char.ofNat n :: acc)
         | _, _, _, _ => none)
      | e :: rest2 =>
        if e = '"' then parseStringBody rest2 ('"' :: acc)
        else if e = '\\' then parseStringBody rest2 ('\\' :: acc)
        else if e = '/' then parseStringBody rest2 ('/' :: acc)
        else if e = 'b' then parseStringBody rest2 ('\x08' :: acc)
        else if e = 'f' then parseStringBody rest2 ('\x0c' :: acc)
        else if e = 'n' then parseStringBody rest2 ('\n' :: acc)
        else if e = 'r' then parseStringBody rest2 ('\r' :: acc)
        else if e = 't' then parseStringBody rest2 ('\t' :: acc)
        else none
    else if c.toNat < 32 then none
    else parseStringBody rest (c :: acc)

/-- ASCII decimal digit test. -/
def isDig (c : Char) : Bool := (48 ≤ c.toNat) && (c.toNat ≤ 57)

/-- Longest digit run at the front of the list. -/
def takeDigits : List Char → List Char × List Char
  | [] => ([], [])
  | c :: rest =>
    if isDig c then
      let p := takeDigits rest
      (c :: p.1, p.2)
    else ([], c :: rest)

/-- Decimal value of a digit run. -/
def digitsToNat (ds : List Char) : Nat :=
  ds.foldl (fun a c => a * 10 + (c.toNat - 48)) 0

/-- Exponent part of Python's JSON number regex (`[eE][-+]?\d+`); returns
`([], orig)` when the characters after `e`/`E` do not continue a valid
exponent, mirroring the regex leaving them unconsumed. -/
def expTail (e : Char) (t orig : List Char) : List Char × List Char :=
  match t with
  | '+' :: d :: r =>
    if isDig d then
      let p := takeDigits r
      ([e, '+', d] ++ p.1, p.2)
    else ([], orig)
  | '-' :: d :: r =>
    if isDig d then
      let p := takeDigits r
      ([e, '-', d] ++ p.1, p.2)
    else ([], orig)
  | d :: r =>
    if isDig d then
      let p := takeDigits r
      ([e, d] ++ p.1, p.2)
    else ([], orig)
  | [] => ([], orig)

/-- Fraction and exponent of a JSON number after its integer part
(Python's `NUMBER_RE`); integer literals become `Json.num`, anything
with a fraction or exponent is kept as a `Json.floatLit` literal. -/
def finishNumber (negChars intDigits rest : List Char) :
    Option (Json × List Char) :=
  let fr : List Char × List Char :=
    match rest with
    | '.' :: d :: t =>
      if isDig d then
        let p := takeDigits t
        ('.' :: d :: p.1, p.2)
      else ([], rest)
    | _ => ([], rest)
  let ex : List Char × List Char :=
    match fr.2 with
    | 'e' :: t => expTail 'e' t fr.2
    | 'E' :: t => expTail 'E' t fr.2
    | _ => ([], fr.2)
  if fr.1.isEmpty && ex.1.isEmpty then
    let n : Int := Int.ofNat (digitsToNat intDigits)
    some (Json.num (if negChars.isEmpty then n else -n), ex.2)
  else
    some (Json.floatLit (String.mk (negChars ++ intDigits ++ fr.1 ++ ex.1)),
      ex.2)

/-- A JSON number as matched by Python's `NUMBER_RE`: optional minus,
then `0` or a nonzero digit followed by digits (so `01` is rejected,
as in Python), then optional fraction and exponent. -/
def parseNumber (cs : List Char) : Option (Json × List Char) :=
  let sp : List Char × List Char :=
    match cs with
    | '-' :: t => (['-'], t)
    | _ => ([], cs)
  match sp.2 with
  | [] => none
  | c :: rest =>
    if c = '0' then finishNumber sp.1 ['0'] rest
    else if isDig c then
      let p := takeDigits rest
      finishNumber sp.1 (c :: p.1) p.2
    else none

/-- The non-recursive JSON values Python's scanner recognises:
`true`, `false`, `null`, the non-finite constants, and numbers. -/
def parseScalar (cs : List Char) : Option (Json × List Char) :=
  match dropSeg ("true".data) cs with
  | some r => some (Json.bool true, r)
  | none =>
  match dropSeg ("false".data) cs with
  | some r => some (Json.bool false, r)
  | none =>
  match dropSeg ("null".data) cs with
  | some r => some (Json.null, r)
  | none =>
  match dropSeg ("NaN".data) cs with
  | some r => some (Json.floatLit ("NaN"), r)
  | none =>
  match dropSeg ("Infinity".data) cs with
  | some r => some (Json.floatLit ("Infinity"), r)
  | none =>
  match dropSeg ("-Infinity".data) cs with
  | some r => some (Json.floatLit ("-Infinity"), r)
  | none => parseNumber cs

/-- Parsing mode of the recursive JSON scanner: a single value, the items
of an array after `[`, or the members of an object after `{`. -/
inductive PMode where
  | value : PMode
  | arrItems : List Json → PMode
  | objItems : List (String × Json) → PMode

/-- The recursive part of Python's JSON scanner, fuelled so the recursion
is structural.  `value` parses one JSON value; `arrItems`/`objItems`
parse the remaining items of an array/object, rejecting trailing commas
and requiring string keys, exactly as Python's strict decoder does. -/
def parseCore : Nat → PMode → List Char → Option (Json × List Char)
  | 0, _, _ => none
  | fuel + 1, PMode.value, cs =>
    (match skipWs cs with
     | [] => none
     | c :: rest =>
       if c = '\x7b' then
         match skipWs rest with
         | '\x7d' :: rest2 => some (Json.obj [], rest2)
         | _ => parseCore fuel (PMode.objItems []) rest
       else if c = '[' then
         match skipWs rest with
         | ']' :: rest2 => some (Json.arr [], rest2)
         | _ => parseCore fuel (PMode.arrItems []) rest
       else if c = '"' then
         match parseStringBody rest [] with
         | some (s, rest2) => some (Json.str s, rest2)
         | none => none
       else parseScalar (c :: rest))
  | fuel + 1, PMode.arrItems acc, cs =>
    (match parseCore fuel PMode.value cs with
     | none => none
     | some (v, rest) =>
       match skipWs rest with
       | ',' :: rest2 => parseCore fuel (PMode.arrItems (acc ++ [v])) rest2
       | ']' :: rest2 => some (Json.arr (acc ++ [v]), rest2)
       | _ => none)
  | fuel + 1, PMode.objItems acc, cs =>
    (match skipWs cs with
     | '"' :: rest =>
       match parseStringBody rest [] with
       | none => none
       | some (k, rest2) =>
         match skipWs rest2 with
         | ':' :: rest3 =>
           (match parseCore fuel PMode.value rest3 with
            | none => none
            | some (v, rest4) =>
              match skipWs rest4 with
              | ',' :: rest5 =>
                parseCore fuel (PMode.objItems (dictInsert acc k v)) rest5
              | '\x7d' :: rest5 =>
                some (Json.obj (dictInsert acc k v), rest5)
              | _ => none)
         | _ => none
     | _ => none)

/-- `json.loads`: skip leading whitespace, parse one value, require the
rest of the input to be whitespace (`Extra data` otherwise).  Returns
`none` where Python raises `json.JSONDecodeError` (a `ValueError`).
The fuel `2 * length + 16` exceeds the number of scanner steps, each of
which consumes at least one character every two steps. -/
def json_loads (s : String) : Option Json :=
  match parseCore (2 * s.length + 16) PMode.value s.data with
  | some (v, rest) => if (skipWs rest).isEmpty then some v else none
  | none => none

/-- Lowercase hexadecimal digit. -/
def hexDig (n : Nat) : Char :=
  if n < 10 then Char.ofNat (48 + n) else Char.ofNat (87 + n)

/-- Four-digit lowercase hexadecimal rendering used by `\uXXXX` escapes. -/
def hex4 (n : Nat) : String :=
  String.mk [hexDig (n / 4096 % 16), hexDig (n / 256 % 16),
    hexDig (n / 16 % 16), hexDig (n % 16)]

/-- Escaping of one character by `json.dumps` with its default
`ensure_ascii=True`: the short escapes, `\uXXXX` for other control or
non-ASCII characters (surrogate pairs above `0xFFFF`), everything else
verbatim. -/
def escapeChar (c : Char) : String :=
  if c = '"' then "\\\""
  else if c = '\\' then "\\\\"
  else if c = '\n' then "\\n"
  else if c = '\r' then "\\r"
  else if c = '\t' then "\\t"
  else if c = '\x08' then "\\b"
  else if c = '\x0c' then "\\f"
  else if c.toNat < 32 ∨ 127 ≤ c.toNat then
    if c.toNat < 65536 then "\\u" ++ hex4 c.toNat
    else
      "\\u" ++ hex4 (55296 + (c.toNat - 65536) / 1024) ++
      "\\u" ++ hex4 (56320 + (c.toNat - 65536) % 1024)
  else String.singleton c

/-- A JSON string literal as produced by `json.dumps`. -/
def quoteStr (s : String) : String :=
  "\"" ++ String.join (s.data.map escapeChar) ++ "\""

/-- Join with `json.dumps`'s default item separator `", "`. -/
def commaJoin : List String → String
  | [] => ""
  | [s] => s
  | s :: rest => s ++ ", " ++ commaJoin rest

/-- Fuelled body of `json_dumps` (fuel keeps the recursion structural;
`json_dumps` supplies `sizeOf`, which always suffices). -/
def dumpsF : Nat → Json → String
  | 0, _ => ""
  | _ + 1, Json.null => "null"
  | _ + 1, Json.bool b => if b then "true" else "false"
  | _ + 1, Json.num n => toString n
  | _ + 1, Json.floatLit s => s
  | _ + 1, Json.str s => quoteStr s
  | fuel + 1, Json.arr xs =>
    "[" ++ commaJoin (xs.map (dumpsF fuel)) ++ "]"
  | fuel + 1, Json.obj kvs =>
    "\x7b" ++
      commaJoin (kvs.map (fun p => quoteStr p.1 ++ ": " ++ dumpsF fuel p.2)) ++
      "\x7d"

mutual

/-- Computable size of a `Json` value, used only to fuel `dumpsF`. -/
def jsize : Json → Nat
  | Json.null => 1
  | Json.bool _ => 1
  | Json.num _ => 1
  | Json.floatLit _ => 1
  | Json.str _ => 1
  | Json.arr xs => 1 + jsizeArr xs
  | Json.obj kvs => 1 + jsizeObj kvs

/-- Size of a list of `Json` values. -/
def jsizeArr : List Json → Nat
  | [] => 1
  | v :: t => 1 + jsize v + jsizeArr t

/-- Size of a list of key-value pairs. -/
def jsizeObj : List (String × Json) → Nat
  | [] => 1
  | p :: t => 1 + jsize p.2 + jsizeObj t

end

/-- `json.dumps` with its default separators `", "` and `": "`. -/
def json_dumps (v : Json) : String := dumpsF (jsize v) v

/-- Python `str.strip()` with no argument: remove leading and trailing
whitespace (modelled for the ASCII whitespace characters; the inputs of
every claim are ASCII). -/
def pyWsChar (c : Char) : Bool :=
  (c == ' ') || (c == '\t') || (c == '\n') || (c == '\r') ||
  (c == '\x0b') || (c == '\x0c')

/-- Python `s.strip()`. -/
def pyStrip (s : String) : String :=
  String.mk (((s.data.dropWhile pyWsChar).reverse.dropWhile pyWsChar).reverse)

/-- Python `s.endswith(suffix)`. -/
def pyEndsWith (s suffix : String) : Bool :=
  leadsWith suffix.data.reverse s.data.reverse

/-- The Python exceptions the pipeline distinguishes: `ValueError`
(including `json.JSONDecodeError`), `TypeError`, and everything else
(network errors from the model endpoint and the like). -/
inductive PyExc where
  | valueError : String → PyExc
  | typeError : String → PyExc
  | other : String → PyExc

/-- Is this exception a `ValueError` (the class the retry loop of
`app.py` singles out)? -/
def PyExc.isValueError : PyExc → Bool
  | PyExc.valueError _ => true
  | _ => false

/-- Did the computation raise a `ValueError`? -/
def isValueErrorResult : Except PyExc Json → Bool
  | Except.error (PyExc.valueError _) => true
  | _ => false

/-- Did the computation return normally? -/
def isOkResult : Except PyExc Json → Bool
  | Except.ok _ => true
  | _ => false

/-- Is this JSON value a dict? -/
def Json.isObjB : Json → Bool
  | Json.obj _ => true
  | _ => false

/-- Python's `key in data` for the values `json.loads` can produce:
key membership for dicts, element equality for lists (a string key only
equals string elements), substring test for strings, and `TypeError`
(`argument ... is not iterable`) for numbers, booleans and `None`. -/
def pyContains : Json → String → Except PyExc Bool
  | Json.obj kvs, k => Except.ok (hasKey kvs k)
  | Json.arr xs, k =>
    Except.ok (xs.any (fun x =>
      match x with
      | Json.str s => s == k
      | _ => false))
  | Json.str s, k => Except.ok (segIn k.data s.data)
  | _, _ => Except.error (PyExc.typeError "argument is not iterable")

/-- Python's `data[key] = value`: in-place update for dicts, `TypeError`
for every other value `json.loads` can produce. -/
def pySetItem : Json → String → Json → Except PyExc Json
  | Json.obj kvs, k, v => Except.ok (Json.obj (dictInsert kvs k v))
  | Json.arr _, _, _ =>
    Except.error (PyExc.typeError "list indices must be integers")
  | Json.str _, _, _ =>
    Except.error (PyExc.typeError "str does not support item assignment")
  | _, _, _ =>
    Except.error (PyExc.typeError "object does not support item assignment")

/-- The sentinel value inserted for missing schema fields. -/
def sentinel : String := "Not specified"

/-- The seven required schema keys, in the order both source files list
them. -/
def required_keys : List String :=
  ["date", "branding_priorities", "cleaning_slots", "stabling_geometry",
   "fitness_certificates", "job_card_status", "mileage"]

/-- One step of the completion loop of `app.py`'s `validate_json`,
specialised to dict data: append the sentinel binding when the key is
absent. -/
def complete_step (kvs : List (String × Json)) (k : String) :
    List (String × Json) :=
  if hasKey kvs k then kvs else kvs ++ [(k, Json.str sentinel)]

/-- The completion loop of `app.py`'s `validate_json` as a pure fold on
dict data. -/
def complete_required (ks : List String) (kvs : List (String × Json)) :
    List (String × Json) :=
  ks.foldl complete_step kvs

/-- The loop body of `app.py`'s `validate_json` (lines 78-80):
`for key in required_keys: if key not in data: data[key] = "Not specified"`,
with Python's `in` and item-assignment semantics on arbitrary parsed
values. -/
def fill_required : List String → Json → Except PyExc Json
  | [], data => Except.ok data
  | k :: ks, data =>
    match pyContains data k with
    | Except.error e => Except.error e
    | Except.ok true => fill_required ks data
    | Except.ok false =>
      match pySetItem data k (Json.str sentinel) with
      | Except.error e => Except.error e
      | Except.ok data2 => fill_required ks data2

/-- The loop body of `converter.py`'s `validate_json` (lines 48-50):
`for key in required_keys: if key not in data: raise ValueError(...)`. -/
def check_required : List String → Json → Except PyExc Json
  | [], data => Except.ok data
  | k :: ks, data =>
    match pyContains data k with
    | Except.error e => Except.error e
    | Except.ok true => check_required ks data
    | Except.ok false =>
      Except.error (PyExc.valueError ("Missing key: " ++ k))

/-- Modelled from the spec: the lenient recovery step of the Response
Normalizer.  The source delegates it to the library `JsonOutputParser.parse`
(code not in this repository); the spec prescribes "locate the first
balanced JSON object substring" and leaves the exact heuristic to the
implementer.  This model scans for a `\x7b` and strict-parses the suffix
starting there, ignoring any trailing text, moving on to the next `\x7b`
when that fails. -/
def extractFirstObject : List Char → Option Json
  | [] => none
  | c :: rest =>
    if c = '\x7b' then
      match parseCore (2 * (c :: rest).length + 16) PMode.value (c :: rest) with
      | some (v, _) => some v
      | none => extractFirstObject rest
    else extractFirstObject rest

/-- Modelled from the spec: the library `parser.parse` step of the
Normalizer — a strict parse of the stripped text, then the lenient
extraction of an embedded JSON object.  Returns `none` where the library
raises (caught by the bare `except` in both source files). -/
def parser_parse (t : String) : Option Json :=
  match json_loads (pyStrip t) with
  | some v => some v
  | none => extractFirstObject t.data

namespace App

/-- `validate_json` of `app.py` (lines 65-82): strict `json.loads`, a
typed `ValueError` when it fails, then the sentinel completion loop.
Python formats the decode error into the message; the model keeps the
fixed prefix. -/
def validate_json (json_str : String) : Except PyExc Json :=
  match json_loads json_str with
  | none => Except.error (PyExc.valueError "Invalid JSON output")
  | some data => fill_required required_keys data

/-- The normalisation step of `app.py`'s `convert_text_to_json`
(lines 101-106): `parser.parse` with bare-`except` fallback to
`json.loads`, then `validate_json(json.dumps(data))`.  When both parses
fail, the raised exception is the `json.JSONDecodeError` (a `ValueError`)
of line 104. -/
def normalize (text_out : String) : Except PyExc Json :=
  match parser_parse text_out with
  | some data => validate_json (json_dumps data)
  | none =>
    match json_loads text_out with
    | some data => validate_json (json_dumps data)
    | none => Except.error (PyExc.valueError "Expecting value")

/-- One attempt of the Builder→Invoker→Normalizer chain in `app.py`:
`chain.invoke` (the `invoke` argument maps the running invocation index
to the model's textual response or a raised exception; the
`result.content` extraction of lines 96-99 is the text itself), then the
normalisation step. -/
def chain_attempt (invoke : Nat → Except PyExc String) (k : Nat) :
    Except PyExc Json :=
  match invoke k with
  | Except.error e => Except.error e
  | Except.ok text_out => normalize text_out

/-- The retry loop of `app.py`'s `convert_text_to_json` (lines 91-137).
`remaining` counts the loop iterations still allowed after the current
one (`remaining = max_retries - attempt`, so `0` is the final iteration
whose failures are re-raised), `k` is the next invocation index; the
second component of the result is the total number of chain invocations
performed.  A `ValueError` from the chain triggers the
inline second chain invocation of lines 110-132; any failure of that
inner attempt re-raises it on the last iteration.  Any other exception
goes to the generic handler of lines 133-137. -/
def retry_loop (invoke : Nat → Except PyExc String) :
    Nat → Nat → Except PyExc Json × Nat
  | 0, k =>
    (match chain_attempt invoke k with
     | Except.ok v => (Except.ok v, k + 1)
     | Except.error e =>
       match e with
       | PyExc.valueError _ =>
         (match chain_attempt invoke (k + 1) with
          | Except.ok v => (Except.ok v, k + 2)
          | Except.error e2 => (Except.error e2, k + 2))
       | _ => (Except.error e, k + 1))
  | r + 1, k =>
    (match chain_attempt invoke k with
     | Except.ok v => (Except.ok v, k + 1)
     | Except.error e =>
       match e with
       | PyExc.valueError _ =>
         (match chain_attempt invoke (k + 1) with
          | Except.ok v => (Except.ok v, k + 2)
          | Except.error _ => retry_loop invoke r (k + 2))
       | _ => retry_loop invoke r (k + 1))

/-- `convert_text_to_json` of `app.py` (lines 85-137), abstracted over
the model endpoint.  Returns the result together with the number of
chain invocations performed. -/
def convert_text_to_json (invoke : Nat → Except PyExc String)
    (max_retries : Nat) : Except PyExc Json × Nat :=
  retry_loop invoke max_retries 0

/-- The schema description embedded in `app.py`'s prompt template
(lines 38-49), verbatim. -/
def schema_description : String :=
  "\nTop-level JSON object with these keys (ALL REQUIRED):\n" ++
  "- date: The date mentioned or current date\n" ++
  "- branding_priorities: Branding or awareness priorities and campaigns\n" ++
  "- cleaning_slots: Scheduled cleaning times and teams\n" ++
  "- stabling_geometry: Train identifiers and stabling information\n" ++
  "- fitness_certificates: Fitness and certificate validity information\n" ++
  "- job_card_status: Status of job cards and maintenance work\n" ++
  "- mileage: Mileage information if available\n\n" ++
  "IMPORTANT: Every field above MUST be included in the output JSON, " ++
  "even if the value is \"Not specified\" or \"Not mentioned\".\n"

/-- Everything `app.py`'s template (lines 51-60) places before the
`raw_text` substitution point, with the `schema` partial variable
already substituted. -/
def prompt_prefix : String :=
  "Convert the following messy train operational text into valid JSON.\n" ++
  "Follow this schema strictly:\n" ++ schema_description ++
  "\n\nRaw text:\n"

/-- Everything `app.py`'s template places after the `raw_text`
substitution point. -/
def prompt_suffix : String :=
  "\n\nOutput ONLY valid JSON with ALL required keys. " ++
  "If a value is missing, use \x27Not specified\x27."

/-- `prompt_template.format(raw_text=...)` of `app.py`: Python
`str.format` substitutes the two placeholders of the template and copies
every other character through, so the result is the literal text around
the substitution points with `raw_text` inserted verbatim (substituted
values are not re-scanned for placeholders). -/
def format_prompt (raw_text : String) : String :=
  prompt_prefix ++ raw_text ++ prompt_suffix

/-- The boundary checks of the `POST /convert` handler (lines 161-177)
that run before `convert_text_to_json` is called: non-`.txt` filename
and blank file content are rejected with HTTP 400 and the pipeline is
never invoked (`reject` carries no pipeline input). -/
def convert_file_boundary (filename text_content : String) :
    Except (Nat × String) String :=
  if pyEndsWith filename (".txt") = false then
    Except.error (400, "Only .txt files are supported")
  else if pyStrip text_content = "" then
    Except.error (400, "File is empty")
  else Except.ok text_content

/-- The boundary checks of the `POST /convert-text` handler
(lines 216-229) that run before `convert_text_to_json` is called: a body
without a `text` key and blank text are rejected with HTTP 400.  A
non-string `text` value makes `raw_text.strip()` raise `AttributeError`,
which the generic handler of lines 249-253 turns into a 500. -/
def convert_text_boundary (request : List (String × Json)) :
    Except (Nat × String) String :=
  if hasKey request "text" = false then
    Except.error (400, "Missing \x27text\x27 field in request body")
  else
    match lookupKey request "text" with
    | some (Json.str raw_text) =>
      if pyStrip raw_text = "" then
        Except.error (400, "Text cannot be empty")
      else Except.ok raw_text
    | _ => Except.error (500, "Server error: AttributeError")

/-- The exception-to-status translation of both handlers' trailing
`except` clauses (lines 193-202 and 244-253): `ValueError` becomes a 400
with the cause embedded, anything else a 500. -/
def exception_status : PyExc → Nat
  | PyExc.valueError _ => 400
  | PyExc.typeError _ => 500
  | PyExc.other _ => 500

end App

namespace Converter

/-- `validate_json` of `converter.py` (lines 37-52): strict `json.loads`,
a typed `ValueError` when it fails, then a `ValueError` naming the first
missing required key. -/
def validate_json (json_str : String) : Except PyExc Json :=
  match json_loads json_str with
  | none => Except.error (PyExc.valueError "Invalid JSON output")
  | some data => check_required required_keys data

/-- The normalisation step of `converter.py`'s `convert_text_to_json`
(lines 71-76), identical to `app.py`'s except for the validation
policy. -/
def normalize (text_out : String) : Except PyExc Json :=
  match parser_parse text_out with
  | some data => validate_json (json_dumps data)
  | none =>
    match json_loads text_out with
    | some data => validate_json (json_dumps data)
    | none => Except.error (PyExc.valueError "Expecting value")

/-- One attempt of the chain in `converter.py` (lines 63-76). -/
def chain_attempt (invoke : Nat → Except PyExc String) (k : Nat) :
    Except PyExc Json :=
  match invoke k with
  | Except.error e => Except.error e
  | Except.ok text_out => normalize text_out

/-- The retry loop of `converter.py`'s `convert_text_to_json`
(lines 61-84): one chain attempt per iteration, re-raising the last
failure when `attempt == max_retries`. -/
def retry_loop (invoke : Nat → Except PyExc String) :
    Nat → Nat → Except PyExc Json × Nat
  | 0, k =>
    (match chain_attempt invoke k with
     | Except.ok v => (Except.ok v, k + 1)
     | Except.error e => (Except.error e, k + 1))
  | r + 1, k =>
    (match chain_attempt invoke k with
     | Except.ok v => (Except.ok v, k + 1)
     | Except.error _ => retry_loop invoke r (k + 1))

/-- `convert_text_to_json` of `converter.py` (lines 55-84), abstracted
over the model endpoint; second component counts chain invocations. -/
def convert_text_to_json (invoke : Nat → Except PyExc String)
    (max_retries : Nat) : Except PyExc Json × Nat :=
  retry_loop invoke max_retries 0

/-- The schema description of `converter.py` (lines 17-21), verbatim. -/
def schema_description : String :=
  "\nTop-level JSON object with these keys:\n" ++
  "date, branding_priorities, cleaning_slots, stabling_geometry,\n" ++
  "fitness_certificates, job_card_status, mileage\n"

/-- Everything `converter.py`'s template (lines 23-32) places before the
`raw_text` substitution point. -/
def prompt_prefix : String :=
  "Convert the following messy train operational text into valid JSON.\n" ++
  "Follow this schema strictly:\n" ++ schema_description ++
  "\n\nRaw text:\n"

/-- Everything `converter.py`'s template places after the `raw_text`
substitution point. -/
def prompt_suffix : String := "\n\nOutput ONLY JSON."

/-- `prompt_template.format(raw_text=...)` of `converter.py`. -/
def format_prompt (raw_text : String) : String :=
  prompt_prefix ++ raw_text ++ prompt_suffix

end Converter

/-- The HTTP status the handlers report for a pipeline outcome: `none`
for a 200 success, otherwise the status assigned by the except-clauses
modelled in `App.exception_status`. -/
def resultStatus : Except PyExc Json → Option Nat
  | Except.ok _ => none
  | Except.error e => some (App.exception_status e)

/-- A model endpoint whose every invocation raises a network error. -/
def failingInvoke : Nat → Except PyExc String :=
  fun _ => Except.error (PyExc.other "network timeout")

/-- A model endpoint whose every invocation returns prose from which no
JSON can be recovered. -/
def unparseableInvoke : Nat → Except PyExc String :=
  fun _ => Except.ok "I cannot process this request."

/-- The seven-key mapping with every field bound to the sentinel. -/
def allSentinel : List (String × Json) :=
  [("date", Json.str sentinel),
   ("branding_priorities", Json.str sentinel),
   ("cleaning_slots", Json.str sentinel),
   ("stabling_geometry", Json.str sentinel),
   ("fitness_certificates", Json.str sentinel),
   ("job_card_status", Json.str sentinel),
   ("mileage", Json.str sentinel)]

/-! ### Association-list and completion-loop lemmas -/

lemma hasKey_append (xs ys : List (String × Json)) (k : String) :
    hasKey (xs ++ ys) k = (hasKey xs k || hasKey ys k) := by
  induction xs with
  | nil => rfl
  | cons p t ih => simp [hasKey, ih, Bool.or_assoc]

lemma hasKey_of_lookup (kvs : List (String × Json)) (k : String) (v : Json)
    (h : lookupKey kvs k = some v) : hasKey kvs k = true := by
  induction kvs with
  | nil => simp [lookupKey] at h
  | cons p t ih =>
    cases hpk : (p.1 == k) with
    | true => simp [hasKey, hpk]
    | false =>
      rw [lookupKey, if_neg (by simp [hpk])] at h
      simp [hasKey, hpk, ih h]

lemma lookup_some_of_hasKey (kvs : List (String × Json)) (k : String)
    (h : hasKey kvs k = true) : ∃ v, lookupKey kvs k = some v := by
  induction kvs with
  | nil => simp [hasKey] at h
  | cons p t ih =>
    cases hpk : (p.1 == k) with
    | true => exact ⟨p.2, by simp [lookupKey, hpk]⟩
    | false =>
      obtain ⟨v, hv⟩ := ih (by simpa [hasKey, hpk] using h)
      exact ⟨v, by simp [lookupKey, hpk, hv]⟩

lemma lookupKey_append_left (xs ys : List (String × Json)) (k : String)
    (h : hasKey xs k = true) : lookupKey (xs ++ ys) k = lookupKey xs k := by
  induction xs with
  | nil => simp [hasKey] at h
  | cons p t ih =>
    cases hpk : (p.1 == k) with
    | true => simp [lookupKey, hpk]
    | false =>
      have h' : hasKey t k = true := by simpa [hasKey, hpk] using h
      simp [lookupKey, hpk, ih h']

lemma lookupKey_append_right (xs ys : List (String × Json)) (k : String)
    (h : hasKey xs k = false) : lookupKey (xs ++ ys) k = lookupKey ys k := by
  induction xs with
  | nil => rfl
  | cons p t ih =>
    rw [hasKey] at h
    cases hpk : (p.1 == k) with
    | true => simp [hpk] at h
    | false =>
      rw [hpk] at h
      simp only [Bool.false_or] at h
      simp [lookupKey, hpk, ih h]

lemma complete_required_nil (kvs : List (String × Json)) :
    complete_required [] kvs = kvs := rfl

lemma complete_required_cons (k : String) (ks : List String)
    (kvs : List (String × Json)) :
    complete_required (k :: ks) kvs =
      complete_required ks (complete_step kvs k) := rfl

lemma fill_required_obj (ks : List String) :
    ∀ kvs, fill_required ks (Json.obj kvs) =
      Except.ok (Json.obj (complete_required ks kvs)) := by
  induction ks with
  | nil => intro kvs; rfl
  | cons k t ih =>
    intro kvs
    rw [complete_required_cons]
    cases h : hasKey kvs k with
    | true =>
      have hstep : complete_step kvs k = kvs := by simp [complete_step, h]
      rw [hstep]
      calc fill_required (k :: t) (Json.obj kvs)
          = fill_required t (Json.obj kvs) := by
            simp [fill_required, pyContains, h]
        _ = _ := ih kvs
    | false =>
      have hstep : complete_step kvs k = kvs ++ [(k, Json.str sentinel)] := by
        simp [complete_step, h]
      rw [hstep]
      calc fill_required (k :: t) (Json.obj kvs)
          = fill_required t (Json.obj (kvs ++ [(k, Json.str sentinel)])) := by
            simp [fill_required, pyContains, pySetItem, h, dictInsert]
        _ = _ := ih _

lemma hasKey_complete_step (kvs : List (String × Json)) (k k' : String)
    (h : hasKey kvs k = true) : hasKey (complete_step kvs k') k = true := by
  unfold complete_step
  split
  · exact h
  · simp [hasKey_append, h]

lemma hasKey_complete_required_mono (ks : List String) :
    ∀ kvs k, hasKey kvs k = true →
      hasKey (complete_required ks kvs) k = true := by
  induction ks with
  | nil => intro kvs k h; exact h
  | cons k' t ih =>
    intro kvs k h
    rw [complete_required_cons]
    exact ih _ _ (hasKey_complete_step kvs k k' h)

lemma hasKey_complete_required_mem (ks : List String) :
    ∀ kvs k, k ∈ ks → hasKey (complete_required ks kvs) k = true := by
  induction ks with
  | nil => intro kvs k h; cases h
  | cons k' t ih =>
    intro kvs k h
    rw [complete_required_cons]
    rcases List.mem_cons.mp h with he | ht
    · subst he
      apply hasKey_complete_required_mono
      unfold complete_step
      split
      · assumption
      · simp [hasKey_append, hasKey]
    · exact ih _ _ ht

lemma lookupKey_complete_step (kvs : List (String × Json)) (k k' : String)
    (v : Json) (h : lookupKey kvs k = some v) :
    lookupKey (complete_step kvs k') k = some v := by
  unfold complete_step
  split
  · exact h
  · rw [lookupKey_append_left _ _ _ (hasKey_of_lookup _ _ _ h)]
    exact h

lemma lookupKey_complete_required_mono (ks : List String) :
    ∀ kvs k v, lookupKey kvs k = some v →
      lookupKey (complete_required ks kvs) k = some v := by
  induction ks with
  | nil => intro kvs k v h; exact h
  | cons k' t ih =>
    intro kvs k v h
    rw [complete_required_cons]
    exact ih _ _ _ (lookupKey_complete_step kvs k k' v h)

lemma lookup_complete_required_absent (ks : List String) :
    ∀ kvs k, hasKey kvs k = false → k ∈ ks →
      lookupKey (complete_required ks kvs) k = some (Json.str sentinel) := by
  induction ks with
  | nil => intro kvs k _ hm; cases hm
  | cons k' t ih =>
    intro kvs k hk hm
    rw [complete_required_cons]
    by_cases he : k' = k
    · subst he
      have hstep : complete_step kvs k' = kvs ++ [(k', Json.str sentinel)] := by
        simp [complete_step, hk]
      rw [hstep]
      apply lookupKey_complete_required_mono
      rw [lookupKey_append_right _ _ _ hk]
      simp [lookupKey]
    · have hm' : k ∈ t := by
        rcases List.mem_cons.mp hm with h1 | h1
        · exact absurd h1.symm he
        · exact h1
      have hk' : hasKey (complete_step kvs k') k = false := by
        unfold complete_step
        split
        · exact hk
        · simp [hasKey_append, hasKey, hk]
          exact he
      exact ih _ _ hk' hm'

lemma complete_required_all_present (ks : List String) :
    ∀ kvs, (∀ k, k ∈ ks → hasKey kvs k = true) →
      complete_required ks kvs = kvs := by
  induction ks with
  | nil => intro kvs _; rfl
  | cons k t ih =>
    intro kvs h
    rw [complete_required_cons]
    have hstep : complete_step kvs k = kvs := by
      simp [complete_step, h k (List.mem_cons_self k t)]
    rw [hstep]
    exact ih kvs (fun k' hk' => h k' (List.mem_cons_of_mem k hk'))

lemma fill_required_nonobj (ks : List String) (d : Json)
    (h : d.isObjB = false) :
    fill_required ks d = Except.ok d ∨
      ∃ m, fill_required ks d = Except.error (PyExc.typeError m) := by
  induction ks with
  | nil => exact Or.inl rfl
  | cons k t ih =>
    cases d with
    | obj kvs => simp [Json.isObjB] at h
    | arr xs =>
      cases hc : (xs.any fun x =>
          match x with
          | Json.str s => s == k
          | _ => false) with
      | true =>
        have : fill_required (k :: t) (Json.arr xs) =
            fill_required t (Json.arr xs) := by
          simp [fill_required, pyContains, hc]
        rw [this]; exact ih
      | false =>
        exact Or.inr ⟨"list indices must be integers",
          by simp [fill_required, pyContains, hc, pySetItem]⟩
    | str s =>
      cases hc : segIn k.data s.data with
      | true =>
        have : fill_required (k :: t) (Json.str s) =
            fill_required t (Json.str s) := by
          simp [fill_required, pyContains, hc]
        rw [this]; exact ih
      | false =>
        exact Or.inr ⟨"str does not support item assignment",
          by simp [fill_required, pyContains, hc, pySetItem]⟩
    | null =>
      exact Or.inr ⟨"argument is not iterable",
        by simp [fill_required, pyContains]⟩
    | bool b =>
      exact Or.inr ⟨"argument is not iterable",
        by simp [fill_required, pyContains]⟩
    | num n =>
      exact Or.inr ⟨"argument is not iterable",
        by simp [fill_required, pyContains]⟩
    | floatLit fs =>
      exact Or.inr ⟨"argument is not iterable",
        by simp [fill_required, pyContains]⟩

/-! ### Retry-loop lemmas -/

lemma error_of_not_ok (r : Except PyExc Json) (h : isOkResult r = false) :
    ∃ e, r = Except.error e := by
  cases r with
  | ok v => simp [isOkResult] at h
  | error e => exact ⟨e, rfl⟩

lemma conv_loop_exhaust (invoke : Nat → Except PyExc String)
    (hfail : ∀ j, ∃ e, Converter.chain_attempt invoke j = Except.error e) :
    ∀ remaining k, Converter.retry_loop invoke remaining k =
      (Converter.chain_attempt invoke (k + remaining),
       k + remaining + 1) := by
  intro remaining
  induction remaining with
  | zero =>
    intro k
    obtain ⟨e, he⟩ := hfail k
    simp only [Converter.retry_loop, he, Nat.add_zero]
  | succ r ih =>
    intro k
    obtain ⟨e, he⟩ := hfail k
    simp only [Converter.retry_loop, he]
    rw [ih (k + 1)]
    have h1 : k + 1 + r = k + (r + 1) := by omega
    rw [h1]

lemma app_loop_exhaust_nonVE (invoke : Nat → Except PyExc String)
    (hfail : ∀ j, ∃ e, App.chain_attempt invoke j = Except.error e ∧
      e.isValueError = false) :
    ∀ remaining k, App.retry_loop invoke remaining k =
      (App.chain_attempt invoke (k + remaining), k + remaining + 1) := by
  intro remaining
  induction remaining with
  | zero =>
    intro k
    obtain ⟨e, he, hv⟩ := hfail k
    cases e with
    | valueError m => simp [PyExc.isValueError] at hv
    | typeError m => simp only [App.retry_loop, he, Nat.add_zero]
    | other m => simp only [App.retry_loop, he, Nat.add_zero]
  | succ r ih =>
    intro k
    obtain ⟨e, he, hv⟩ := hfail k
    have h1 : k + 1 + r = k + (r + 1) := by omega
    cases e with
    | valueError m => simp [PyExc.isValueError] at hv
    | typeError m =>
      simp only [App.retry_loop, he]
      rw [ih (k + 1), h1]
    | other m =>
      simp only [App.retry_loop, he]
      rw [ih (k + 1), h1]

lemma app_loop_exhaust_VE (invoke : Nat → Except PyExc String)
    (hfail : ∀ j, ∃ e, App.chain_attempt invoke j = Except.error e ∧
      e.isValueError = true) :
    ∀ remaining k, App.retry_loop invoke remaining k =
      (App.chain_attempt invoke (k + 2 * remaining + 1),
       k + 2 * remaining + 2) := by
  intro remaining
  induction remaining with
  | zero =>
    intro k
    obtain ⟨e, he, hv⟩ := hfail k
    obtain ⟨e2, he2, hv2⟩ := hfail (k + 1)
    cases e with
    | typeError m => simp [PyExc.isValueError] at hv
    | other m => simp [PyExc.isValueError] at hv
    | valueError m =>
      simp only [App.retry_loop, he, he2, Nat.mul_zero, Nat.add_zero]
  | succ r ih =>
    intro k
    obtain ⟨e, he, hv⟩ := hfail k
    obtain ⟨e2, he2, hv2⟩ := hfail (k + 1)
    cases e with
    | typeError m => simp [PyExc.isValueError] at hv
    | other m => simp [PyExc.isValueError] at hv
    | valueError m =>
      simp only [App.retry_loop, he, he2]
      rw [ih (k + 2)]
      have h1 : k + 2 + 2 * r + 1 = k + 2 * (r + 1) + 1 := by omega
      have h2 : k + 2 + 2 * r + 2 = k + 2 * (r + 1) + 2 := by omega
      rw [h1, h2]

/-! ### String-containment lemmas for the prompt builder -/

lemma str_data_append (a b : String) : (a ++ b).data = a.data ++ b.data := rfl

lemma leadsWith_self_append (n s : List Char) :
    leadsWith n (n ++ s) = true := by
  induction n with
  | nil => rfl
  | cons c t ih => simp [leadsWith, ih]

lemma segIn_nil_any (h : List Char) : segIn [] h = true := by
  cases h with
  | nil => rfl
  | cons c t => simp [segIn, leadsWith]

lemma segIn_append_mid (p n s : List Char) :
    segIn n (p ++ n ++ s) = true := by
  induction p with
  | nil =>
    rw [List.nil_append]
    cases n with
    | nil => exact segIn_nil_any s
    | cons c t =>
      have h := leadsWith_self_append (c :: t) s
      rw [List.cons_append] at h
      rw [List.cons_append]
      simp only [segIn, h, Bool.true_or]
  | cons c pt ih =>
    rw [List.append_assoc] at ih
    simp [segIn, List.append_assoc, ih]

/-! ### Claim theorems -/

/-- Claim C1: for every input string that parses as a JSON object, the
Response Normalizer (`validate_json` in `app.py`) returns a mapping (the
parsed object run through the completion loop) that contains all seven
required keys, and every required key absent from the parsed object is
bound to the sentinel string `"Not specified"` in the result. -/
theorem claim_C1_schema_completeness (s : String)
    (kvs : List (String × Json))
    (h : json_loads s = some (Json.obj kvs)) :
    App.validate_json s =
      Except.ok (Json.obj (complete_required required_keys kvs)) ∧
    (∀ k, k ∈ required_keys →
      hasKey (complete_required required_keys kvs) k = true) ∧
    (∀ k, k ∈ required_keys → hasKey kvs k = false →
      lookupKey (complete_required required_keys kvs) k =
        some (Json.str sentinel)) := by
  refine ⟨?_, ?_, ?_⟩
  · unfold App.validate_json
    rw [h]
    exact fill_required_obj required_keys kvs
  · intro k hk
    exact hasKey_complete_required_mem required_keys kvs k hk
  · intro k hk habs
    exact lookup_complete_required_absent required_keys kvs k habs hk

/-- Witness for C1 at the one-key object `\x7b"date": "2024-01-01"\x7d`:
the missing key `mileage` is present in the result and bound to the
sentinel. -/
theorem claim_C1_witness :
    App.validate_json ("\x7b\"date\": \"2024-01-01\"\x7d") =
      Except.ok (Json.obj (complete_required required_keys
        [("date", Json.str "2024-01-01")])) ∧
    hasKey (complete_required required_keys
      [("date", Json.str "2024-01-01")]) "mileage" = true ∧
    lookupKey (complete_required required_keys
      [("date", Json.str "2024-01-01")]) "mileage" =
      some (Json.str sentinel) := by
  obtain ⟨h1, h2, h3⟩ := claim_C1_schema_completeness
    ("\x7b\"date\": \"2024-01-01\"\x7d") [("date", Json.str "2024-01-01")] rfl
  exact ⟨h1, h2 "mileage" (by decide), h3 "mileage" (by decide) rfl⟩

/-- Claim C3: the two `validate_json` implementations apply different
missing-key policies: on the string `\x7b\x7d` (an object missing every
required key) `app.py`'s returns the completed mapping while
`converter.py`'s raises `ValueError: Missing key: date`, so the two
functions are not extensionally equal. -/
theorem claim_C3_divergent_missing_key_policy :
    App.validate_json ("\x7b\x7d") = Except.ok (Json.obj allSentinel) ∧
    Converter.validate_json ("\x7b\x7d") =
      Except.error (PyExc.valueError "Missing key: date") ∧
    App.validate_json ("\x7b\x7d") ≠ Converter.validate_json ("\x7b\x7d") := by
  refine ⟨rfl, rfl, fun hcontra => ?_⟩
  have h : (Except.ok (Json.obj allSentinel) : Except PyExc Json) =
      Except.error (PyExc.valueError "Missing key: date") := hcontra
  exact Except.noConfusion h

/-- Claim C4: for raw model text from which neither the lenient
`parser.parse` step nor the strict `json.loads` fallback recovers a JSON
value, the Normalizer fails with the typed parse error (`MalformedOutput`
realised as a Python `ValueError`) and returns no mapping. -/
theorem claim_C4_hard_failure (t : String)
    (h1 : parser_parse t = none) (h2 : json_loads t = none) :
    App.normalize t = Except.error (PyExc.valueError "Expecting value") ∧
    isValueErrorResult (App.normalize t) = true ∧
    isOkResult (App.normalize t) = false := by
  unfold App.normalize
  rw [h1, h2]
  exact ⟨rfl, rfl, rfl⟩

/-- Witness for C4 at the raw text `I cannot process this request.`. -/
theorem claim_C4_witness :
    App.normalize ("I cannot process this request.") =
      Except.error (PyExc.valueError "Expecting value") :=
  (claim_C4_hard_failure ("I cannot process this request.") rfl rfl).1

/-- Claim C5: on the raw text `Here is your JSON:` followed by a json code
fence around the one-key object with `date` set to `2024-01-01`, the
Normalizer extracts the embedded object and returns `date = "2024-01-01"`
with the other six required keys bound to the sentinel, rather than
failing. -/
theorem claim_C5_lenient_recovery :
    App.normalize
      ("Here is your JSON:\n```json\n\x7b\"date\":\"2024-01-01\"\x7d\n```") =
      Except.ok (Json.obj
        [("date", Json.str "2024-01-01"),
         ("branding_priorities", Json.str sentinel),
         ("cleaning_slots", Json.str sentinel),
         ("stabling_geometry", Json.str sentinel),
         ("fitness_certificates", Json.str sentinel),
         ("job_card_status", Json.str sentinel),
         ("mileage", Json.str sentinel)]) := rfl

/-- Claim C2 counterexample: with the default `max_retries = 2` and a model
whose output never parses, every chain attempt of `app.py`'s
`convert_text_to_json` fails with a `ValueError`, and the function
performs 6 chain attempts — not `max_retries + 1 = 3` — because the
`except ValueError` arm of every loop iteration runs a second inline
chain invocation (lines 110-132 of `app.py`). -/
theorem claim_C2_counterexample :
    App.convert_text_to_json unparseableInvoke 2 =
      (Except.error (PyExc.valueError "Expecting value"), 6) ∧
    (6 : Nat) ≠ 2 + 1 := ⟨rfl, by decide⟩

/-- Claim C2 (amended): when every chain attempt fails, `converter.py`'s
`convert_text_to_json` performs exactly `max_retries + 1` chain attempts
and re-raises the final failure; `app.py`'s performs exactly
`max_retries + 1` chain attempts when no failure is a `ValueError`, and
exactly `2 * (max_retries + 1)` chain attempts when every failure is a
`ValueError` (the parse-failure case), re-raising the final failure; in
every case no partial result is returned. -/
theorem claim_C2_retry_exhaustion_amended
    (invoke1 invoke2 invoke3 : Nat → Except PyExc String) (n : Nat)
    (h1 : ∀ j, ∃ e, Converter.chain_attempt invoke1 j = Except.error e)
    (h2 : ∀ j, ∃ e, App.chain_attempt invoke2 j = Except.error e ∧
      e.isValueError = false)
    (h3 : ∀ j, ∃ e, App.chain_attempt invoke3 j = Except.error e ∧
      e.isValueError = true) :
    Converter.convert_text_to_json invoke1 n =
      (Converter.chain_attempt invoke1 n, n + 1) ∧
    App.convert_text_to_json invoke2 n =
      (App.chain_attempt invoke2 n, n + 1) ∧
    App.convert_text_to_json invoke3 n =
      (App.chain_attempt invoke3 (2 * n + 1), 2 * n + 2) ∧
    isOkResult (Converter.convert_text_to_json invoke1 n).1 = false ∧
    isOkResult (App.convert_text_to_json invoke2 n).1 = false ∧
    isOkResult (App.convert_text_to_json invoke3 n).1 = false := by
  have e1 : Converter.convert_text_to_json invoke1 n =
      (Converter.chain_attempt invoke1 n, n + 1) := by
    have h := conv_loop_exhaust invoke1 h1 n 0
    rw [Nat.zero_add] at h
    exact h
  have e2 : App.convert_text_to_json invoke2 n =
      (App.chain_attempt invoke2 n, n + 1) := by
    have h := app_loop_exhaust_nonVE invoke2 h2 n 0
    rw [Nat.zero_add] at h
    exact h
  have e3 : App.convert_text_to_json invoke3 n =
      (App.chain_attempt invoke3 (2 * n + 1), 2 * n + 2) := by
    have h := app_loop_exhaust_VE invoke3 h3 n 0
    rw [Nat.zero_add] at h
    exact h
  refine ⟨e1, e2, e3, ?_, ?_, ?_⟩
  · rw [e1]
    obtain ⟨e, he⟩ := h1 n
    simp [isOkResult, he]
  · rw [e2]
    obtain ⟨e, he, _⟩ := h2 n
    simp [isOkResult, he]
  · rw [e3]
    obtain ⟨e, he, _⟩ := h3 (2 * n + 1)
    simp [isOkResult, he]

/-- Witness for the amended C2 with `max_retries = 2`: a network-failing
endpoint for both loops (3 attempts each) and an unparseable-output
endpoint for `app.py`'s `ValueError` path (6 attempts). -/
theorem claim_C2_witness :
    Converter.convert_text_to_json failingInvoke 2 =
      (Converter.chain_attempt failingInvoke 2, 2 + 1) ∧
    App.convert_text_to_json failingInvoke 2 =
      (App.chain_attempt failingInvoke 2, 2 + 1) ∧
    App.convert_text_to_json unparseableInvoke 2 =
      (App.chain_attempt unparseableInvoke (2 * 2 + 1), 2 * 2 + 2) ∧
    isOkResult (Converter.convert_text_to_json failingInvoke 2).1 = false ∧
    isOkResult (App.convert_text_to_json failingInvoke 2).1 = false ∧
    isOkResult (App.convert_text_to_json unparseableInvoke 2).1 = false :=
  claim_C2_retry_exhaustion_amended failingInvoke failingInvoke
    unparseableInvoke 2
    (fun _ => ⟨PyExc.other "network timeout", rfl⟩)
    (fun _ => ⟨PyExc.other "network timeout", rfl, rfl⟩)
    (fun _ => ⟨PyExc.valueError "Expecting value", rfl, rfl⟩)

/-- Claim C6: schema completion is idempotent: any string parsing to a
mapping that already contains all seven required keys is returned by
`app.py`'s `validate_json` as exactly that mapping, unchanged — so
running the Normalizer on the serialisation of an already-complete
result reproduces it, and twice equals once. -/
theorem claim_C6_idempotent_completion (s : String)
    (kvs : List (String × Json))
    (h1 : json_loads s = some (Json.obj kvs))
    (h2 : required_keys.all (fun k => hasKey kvs k) = true) :
    App.validate_json s = Except.ok (Json.obj kvs) := by
  unfold App.validate_json
  rw [h1]
  show fill_required required_keys (Json.obj kvs) = Except.ok (Json.obj kvs)
  rw [fill_required_obj required_keys kvs,
    complete_required_all_present required_keys kvs
      (fun k hk => List.all_eq_true.mp h2 k hk)]

set_option maxRecDepth 8000 in
/-- Witness for C6 at the serialisation of a complete seven-key mapping. -/
theorem claim_C6_witness :
    App.validate_json
      ("\x7b\"date\": \"d\", \"branding_priorities\": \"b\", \"cleaning_slots\": \"c\", \"stabling_geometry\": \"s\", \"fitness_certificates\": \"f\", \"job_card_status\": \"j\", \"mileage\": \"m\"\x7d") =
      Except.ok (Json.obj
        [("date", Json.str "d"), ("branding_priorities", Json.str "b"),
         ("cleaning_slots", Json.str "c"),
         ("stabling_geometry", Json.str "s"),
         ("fitness_certificates", Json.str "f"),
         ("job_card_status", Json.str "j"),
         ("mileage", Json.str "m")]) :=
  claim_C6_idempotent_completion _ _ rfl (by decide)

/-- Claim C7: schema completion only adds missing required keys: for every
string parsing to a JSON object, `app.py`'s `validate_json` keeps every
key already present — including extra, non-schema model-authored keys —
bound to its original value, and removes no key. -/
theorem claim_C7_completion_frame (s : String) (kvs : List (String × Json))
    (h : json_loads s = some (Json.obj kvs)) :
    App.validate_json s =
      Except.ok (Json.obj (complete_required required_keys kvs)) ∧
    (∀ k, hasKey kvs k = true →
      hasKey (complete_required required_keys kvs) k = true) ∧
    (∀ k, hasKey kvs k = true →
      lookupKey (complete_required required_keys kvs) k =
        lookupKey kvs k) := by
  refine ⟨?_, ?_, ?_⟩
  · unfold App.validate_json
    rw [h]
    exact fill_required_obj required_keys kvs
  · intro k hk
    exact hasKey_complete_required_mono required_keys kvs k hk
  · intro k hk
    obtain ⟨v, hv⟩ := lookup_some_of_hasKey kvs k hk
    rw [hv]
    exact lookupKey_complete_required_mono required_keys kvs k v hv

/-- Witness for C7 at an object with the extra non-schema key `note`:
the key survives completion with its original value. -/
theorem claim_C7_witness :
    hasKey (complete_required required_keys
      [("note", Json.str "extra"), ("date", Json.str "x")]) "note" = true ∧
    lookupKey (complete_required required_keys
      [("note", Json.str "extra"), ("date", Json.str "x")]) "note" =
      lookupKey [("note", Json.str "extra"), ("date", Json.str "x")]
        "note" := by
  obtain ⟨h1, h2, h3⟩ := claim_C7_completion_frame
    ("\x7b\"note\": \"extra\", \"date\": \"x\"\x7d")
    [("note", Json.str "extra"), ("date", Json.str "x")] rfl
  exact ⟨h2 "note" rfl, h3 "note" rfl⟩

/-- Claim C8: both prompt builders produce a single instruction string
that contains the raw input text verbatim as a contiguous substring —
the formatted prompt is literally the fixed prefix, the raw text
unmodified, then the fixed suffix — so no part of the input is truncated
or lost. -/
theorem claim_C8_prompt_embeds_verbatim (raw_text : String) :
    App.format_prompt raw_text =
      App.prompt_prefix ++ raw_text ++ App.prompt_suffix ∧
    segIn raw_text.data (App.format_prompt raw_text).data = true ∧
    Converter.format_prompt raw_text =
      Converter.prompt_prefix ++ raw_text ++ Converter.prompt_suffix ∧
    segIn raw_text.data (Converter.format_prompt raw_text).data = true := by
  refine ⟨rfl, ?_, rfl, ?_⟩
  · have h : (App.format_prompt raw_text).data =
        App.prompt_prefix.data ++ raw_text.data ++
          App.prompt_suffix.data := by
      simp [App.format_prompt, str_data_append]
    rw [h]
    exact segIn_append_mid _ _ _
  · have h : (Converter.format_prompt raw_text).data =
        Converter.prompt_prefix.data ++ raw_text.data ++
          Converter.prompt_suffix.data := by
      simp [Converter.format_prompt, str_data_append]
    rw [h]
    exact segIn_append_mid _ _ _

/-- Claim C9: boundary validation rejects invalid requests with HTTP 400
before the conversion pipeline runs: a `/convert` filename not ending in
`.txt`, a `/convert-text` body without a `text` field, and a blank
`text` value are all rejected with status 400, and no pipeline input is
produced. -/
theorem claim_C9_boundary_validation (filename content : String)
    (req1 req2 : List (String × Json)) (s : String)
    (hf : pyEndsWith filename (".txt") = false)
    (hm : hasKey req1 "text" = false)
    (hl : lookupKey req2 "text" = some (Json.str s))
    (hb : pyStrip s = "") :
    App.convert_file_boundary filename content =
      Except.error (400, "Only .txt files are supported") ∧
    App.convert_text_boundary req1 =
      Except.error (400, "Missing \x27text\x27 field in request body") ∧
    App.convert_text_boundary req2 =
      Except.error (400, "Text cannot be empty") := by
  refine ⟨?_, ?_, ?_⟩
  · simp [App.convert_file_boundary, hf]
  · simp [App.convert_text_boundary, hm]
  · have hk : hasKey req2 "text" = true := hasKey_of_lookup req2 "text" _ hl
    simp [App.convert_text_boundary, hk, hl, hb]

/-- Witness for C9 at the spec's three boundary examples: `notes.md`, an
empty body, and whitespace-only text. -/
theorem claim_C9_witness :
    App.convert_file_boundary ("notes.md") ("some text") =
      Except.error (400, "Only .txt files are supported") ∧
    App.convert_text_boundary [] =
      Except.error (400, "Missing \x27text\x27 field in request body") ∧
    App.convert_text_boundary [("text", Json.str "  ")] =
      Except.error (400, "Text cannot be empty") :=
  claim_C9_boundary_validation ("notes.md") ("some text") []
    [("text", Json.str "  ")] ("  ") rfl rfl rfl rfl

set_option maxRecDepth 4000 in
/-- Claim C10 counterexample: a non-object model output does not always
raise a `TypeError` and surface as a 500: the JSON array holding exactly
the seven required key names passes every membership test of the
completion loop, so `app.py`'s `validate_json` returns it unchanged as a
success (a 200, not a 500). -/
theorem claim_C10_counterexample :
    json_loads ("[\"date\", \"branding_priorities\", \"cleaning_slots\", \"stabling_geometry\", \"fitness_certificates\", \"job_card_status\", \"mileage\"]") =
      some (Json.arr
        [Json.str "date", Json.str "branding_priorities",
         Json.str "cleaning_slots", Json.str "stabling_geometry",
         Json.str "fitness_certificates", Json.str "job_card_status",
         Json.str "mileage"]) ∧
    App.validate_json ("[\"date\", \"branding_priorities\", \"cleaning_slots\", \"stabling_geometry\", \"fitness_certificates\", \"job_card_status\", \"mileage\"]") =
      Except.ok (Json.arr
        [Json.str "date", Json.str "branding_priorities",
         Json.str "cleaning_slots", Json.str "stabling_geometry",
         Json.str "fitness_certificates", Json.str "job_card_status",
         Json.str "mileage"]) ∧
    resultStatus (App.validate_json
      ("[\"date\", \"branding_priorities\", \"cleaning_slots\", \"stabling_geometry\", \"fitness_certificates\", \"job_card_status\", \"mileage\"]")) ≠
      some 500 := by
  refine ⟨rfl, rfl, fun hc => ?_⟩
  have h : (none : Option Nat) = some 500 := hc
  exact Option.noConfusion h

/-- Claim C10 (amended): when the model's text parses to a non-object
JSON value, `app.py`'s `validate_json` never raises its typed
`ValueError`, so such output escapes the MalformedOutput-to-400
classification; it either returns the value unchanged (when every
membership test of the completion loop passes, e.g. an array containing
all seven key names) or raises a `TypeError` that the handlers'
except-clauses map to HTTP 500. -/
theorem claim_C10_nonobject_amended (s : String) (v : Json)
    (h1 : json_loads s = some v) (h2 : v.isObjB = false) :
    isValueErrorResult (App.validate_json s) = false ∧
    (App.validate_json s = Except.ok v ∨
      resultStatus (App.validate_json s) = some 500) := by
  have hval : App.validate_json s = fill_required required_keys v := by
    unfold App.validate_json
    rw [h1]
  rcases fill_required_nonobj required_keys v h2 with hok | ⟨m, herr⟩
  · rw [hval, hok]
    exact ⟨rfl, Or.inl rfl⟩
  · rw [hval, herr]
    exact ⟨rfl, Or.inr rfl⟩

/-- Witness for the amended C10 at the top-level array `[1]`. -/
theorem claim_C10_witness :
    isValueErrorResult (App.validate_json ("[1]")) = false ∧
    (App.validate_json ("[1]") = Except.ok (Json.arr [Json.num 1]) ∨
      resultStatus (App.validate_json ("[1]")) = some 500) :=
  claim_C10_nonobject_amended ("[1]") (Json.arr [Json.num 1]) rfl rfl
